import Mathlib

/-
Verification of the per-endpoint monitoring logic of src/oracle.py.

The Python source is shallowly embedded: pure string manipulation is
translated to Lean functions over List Char / String; every external call
(OCI network API, HTTP reachability service, file system, sleeps, log
lines relevant to the claims) is modelled by scripting its outcome in an
input structure and recording an Action in an output trace.  A raised
Python exception at a call site is modelled as the Except.error outcome
of that call.
-/

namespace Oci

/-- Python str.strip over the character list of a string: drop whitespace
from both ends.  Models the `line.strip()` and `response.text.strip()`
calls in src/oracle.py. -/
def pyStrip (cs : List Char) : List Char :=
  ((cs.dropWhile Char.isWhitespace).reverse.dropWhile Char.isWhitespace).reverse

/-- Python str.strip on a Lean String. -/
def pyStripStr (s : String) : String :=
  (pyStrip s.data).asString

/-- Splitting a character list at newline characters, mirroring how Python
file lines arise from the characters written to the file.  An empty list
yields one empty line, as Python str.split("\n") does. -/
def splitLines : List Char → List (List Char)
  | [] => [[]]
  | c :: rest =>
    if c = '\n' then [] :: splitLines rest
    else
      match splitLines rest with
      | [] => [[c]]
      | l :: ls => (c :: l) :: ls

/-- Outcome of the HTTP request made by CheckConnection.remote_check
(src/oracle.py lines 102 ff.): either a response with a status code and a
body, or a raised exception (timeout / network error). -/
inductive HttpResult where
  | ok (status : Nat) (body : String)
  | exn
  deriving DecidableEq

/-- CheckConnection.remote_check, src/oracle.py lines 91-118: a 200
response is stripped and compared against the literal tokens "True" and
"False"; every other body, status, or exception yields False.  The
try/except wrapper makes the Python function total, hence the Lean
embedding is a total function into Bool. -/
def remote_check (resp : HttpResult) : Bool :=
  match resp with
  | .ok status body =>
    if status = 200 then
      let text := pyStripStr body
      if text = "True" then true
      else if text = "False" then false
      else false
    else false
  | .exn => false

/-
The address history store.  OCIAPI.record_ip appends `ip + "\n"` to the
per-endpoint file; OCIAPI.read_ip reads the file lines and strips each.
The file is modelled as the list of chunks appended so far (each chunk is
one recorded string, written with a trailing newline; a missing file
behaves like an empty one, which is also what read_ip creates).
-/

/-- Physical lines of the history file: each appended chunk `c` was
written as `c ++ "\n"`, so the concatenated file splits into the newline
splits of each chunk. -/
def fileLines : List String → List (List Char)
  | [] => []
  | c :: rest => splitLines c.data ++ fileLines rest

/-- OCIAPI.read_ip, src/oracle.py lines 165-174: read every line of the
history file and strip it. -/
def read_ip (file : List String) : List String :=
  (fileLines file).map (fun l => (pyStrip l).asString)

/-- OCIAPI.record_ip, src/oracle.py lines 159-162: append the address to
the history file when it is truthy and not already among the stripped
lines read back by read_ip.  The argument is an Option because the
recorded value comes from `vnic.public_ip`, which may be Python None. -/
def record_ip (ip : Option String) (file : List String) : List String :=
  match ip with
  | none => file
  | some s => if s ≠ "" ∧ s ∉ read_ip file then file ++ [s] else file

/-- Folding a sequence of record_ip calls over the store, oldest first. -/
def recordAll (ips : List String) (file : List String) : List String :=
  ips.foldl (fun f i => record_ip (some i) f) file

/-- Specification-side deduplicating append: keep the first occurrence of
each address in insertion order. -/
def dedupAppend (seen : List String) (ip : String) : List String :=
  if ip ∈ seen then seen else seen ++ [ip]

/-- Specification-side first-insertion-order deduplication of a sequence
of addresses. -/
def distinctInOrder (ips : List String) : List String :=
  ips.foldl dedupAppend []

/-- An address that survives the file round trip unchanged: nonempty
(truthy), fixed by stripping, and free of embedded newlines. -/
def cleanAddr (s : String) : Prop :=
  s ≠ "" ∧ pyStrip s.data = s.data ∧ '\n' ∉ s.data

instance : DecidablePred cleanAddr := fun s => by
  unfold cleanAddr; infer_instance

/-
The OCI side.  A VNIC record carries the two fields the program reads; a
public-IP listing entry carries the two fields the release step reads.
-/

instance {ε α : Type} [DecidableEq ε] [DecidableEq α] :
    DecidableEq (Except ε α) := fun a b => by
  cases a <;> cases b <;>
    first
      | (apply isFalse; intro h; exact Except.noConfusion h)
      | (rename_i x y
         exact if h : x = y then isTrue (by rw [h]) else
           isFalse (fun hc => h (by injection hc)))

/-- Fields of the VNIC object read by src/oracle.py: `public_ip` (Python
None or a string; the empty string is also falsy) and `private_ip_id`. -/
structure Vnic where
  public_ip : Option String
  private_ip_id : String
  deriving DecidableEq

/-- Fields of one entry of `list_public_ips(...).data` read by the
release step: `ip_address` and `id`. -/
structure PublicIp where
  ip_address : String
  id : String
  deriving DecidableEq

/-- Python truthiness of `vnic.public_ip`: None and the empty string are
falsy. -/
def pyTruthy : Option String → Bool
  | none => false
  | some s => s ≠ ""

/-- The marker returned as the previous address when none was assigned,
src/oracle.py line 200 (the literal means "not assigned"). -/
def unassignedMarker : String := "未分配"

/-- old_ip computation of change_ip, line 200: the public ip when truthy,
otherwise the marker. -/
def orUnassigned : Option String → String
  | none => unassignedMarker
  | some s => if s = "" then unassignedMarker else s

/-- The loop of change_ip, lines 211-215: first listed public ip whose
ip_address equals the VNIC address, if any, giving its OCID. -/
def findPublicIpId (ips : List PublicIp) (addr : String) : Option String :=
  (ips.find? (fun p => p.ip_address = addr)).map PublicIp.id

/-- Externally observable steps of one monitor, in program order: the
OCI calls, the sleeps, the HTTP reachability probes, the history append,
and the log lines the claims refer to. -/
inductive Action where
  | logInitFailure
  | getVnic
  | startChange
  | listPublicIps
  | warnIpNotFound (addr : String)
  | deletePublicIp (id : String)
  | createPublicIp (privateIpId : String)
  | sleep (secs : Nat)
  | recordIp (ip : Option String)
  | oracleCheck (server : Option String) (port : Nat)
  | logAllocFail
  | logChangeFail
  | logNewIpOk
  | logNewIpStillFail
  deriving DecidableEq

/-- Scripted outcomes of the external calls one change_ip invocation can
make, in program order.  Fields for calls that the control flow skips are
simply unused. -/
structure ChangeIpScript where
  vnic1 : Except Unit Vnic
  publicIps : Except Unit (List PublicIp)
  deleteRes : Except Unit Unit
  createRes : Except Unit Unit
  vnic2 : Except Unit Vnic
  deriving DecidableEq

/-- Release step of change_ip, src/oracle.py lines 203-223: when the VNIC
has a truthy public ip, list the region public ips, look the address up,
and either delete it and wait 10 seconds, or log the not-found warning
and continue.  Returns whether the step raised, and its action trace. -/
def releaseStep (pubIps : Except Unit (List PublicIp))
    (deleteRes : Except Unit Unit) (addr : Option String) :
    Except Unit Unit × List Action :=
  match addr with
  | none => (.ok (), [])
  | some s =>
    if s = "" then (.ok (), [])
    else
      match pubIps with
      | .error _ => (.error (), [.listPublicIps])
      | .ok ips =>
        match findPublicIpId ips s with
        | some pid =>
          if pid = "" then (.ok (), [.listPublicIps, .warnIpNotFound s])
          else
            match deleteRes with
            | .error _ => (.error (), [.listPublicIps, .deletePublicIp pid])
            | .ok _ => (.ok (), [.listPublicIps, .deletePublicIp pid, .sleep 10])
        | none => (.ok (), [.listPublicIps, .warnIpNotFound s])

/-- OCIAPI.change_ip, src/oracle.py lines 194-253: read the VNIC, run the
release step, create a new ephemeral public ip, wait 15 seconds, read the
VNIC again, record the new address, and return (old, new).  Any raising
call aborts the sequence and the exception propagates to the caller; the
history file is returned alongside, unchanged on every aborting path. -/
def change_ip (sc : ChangeIpScript) (hist : List String) :
    Except Unit (String × Option String) × List String × List Action :=
  match sc.vnic1 with
  | .error _ => (.error (), hist, [.startChange, .getVnic])
  | .ok v =>
    match releaseStep sc.publicIps sc.deleteRes v.public_ip with
    | (.error _, tr) => (.error (), hist, [.startChange, .getVnic] ++ tr)
    | (.ok _, tr) =>
      match sc.createRes with
      | .error _ =>
        (.error (), hist,
         [.startChange, .getVnic] ++ tr ++ [.createPublicIp v.private_ip_id])
      | .ok _ =>
        match sc.vnic2 with
        | .error _ =>
          (.error (), hist,
           [.startChange, .getVnic] ++ tr ++
             [.createPublicIp v.private_ip_id, .sleep 15, .getVnic])
        | .ok v2 =>
          (.ok (orUnassigned v.public_ip, v2.public_ip),
           record_ip v2.public_ip hist,
           [.startChange, .getVnic] ++ tr ++
             [.createPublicIp v.private_ip_id, .sleep 15, .getVnic,
              .recordIp v2.public_ip])

/-- OCIAPI.get_ip, src/oracle.py lines 177-191: return the VNIC public ip
when truthy, None when the VNIC has none, and None again when the call
raises (the except branch logs and returns None). -/
def get_ip : Except Unit Vnic → Option String
  | .error _ => none
  | .ok v =>
    match v.public_ip with
    | some s => if s = "" then none else some s
    | none => none

/-- Scripted outcomes of the external calls one iteration of the monitor
loop can make: the get_ip fetch, the allocation-path change_ip, the first
reachability probe, the rotation-path change_ip, and the diagnostic
re-probe. -/
structure CycleScript where
  vnicFetch : Except Unit Vnic
  changeA : ChangeIpScript
  oracle1 : HttpResult
  changeB : ChangeIpScript
  oracle2 : HttpResult
  deriving DecidableEq

/-- Tail of a monitor iteration once an address (possibly Python None,
when the allocation path produced none) is in hand, src/oracle.py lines
285-310: probe the oracle; when reachable, sleep; when not, rotate, and
on success re-probe the new address once for logging, then sleep; a
raising rotation is logged and the iteration still reaches the sleep. -/
def check_and_maybe_rotate (sc : CycleScript) (rt port : Nat)
    (ip : Option String) (hist : List String) : List String × List Action :=
  if remote_check sc.oracle1 then
    (hist, [.oracleCheck ip port, .sleep rt])
  else
    match change_ip sc.changeB hist with
    | (.error _, h1, tB) =>
      (h1, Action.oracleCheck ip port :: (tB ++ [.logChangeFail, .sleep rt]))
    | (.ok (_, newIp), h1, tB) =>
      if remote_check sc.oracle2 then
        (h1, Action.oracleCheck ip port ::
          (tB ++ [.oracleCheck newIp port, .logNewIpOk, .sleep rt]))
      else
        (h1, Action.oracleCheck ip port ::
          (tB ++ [.oracleCheck newIp port, .logNewIpStillFail, .sleep rt]))

/-- One iteration of the while-True loop of monitor_server, src/oracle.py
lines 271-314: fetch the address; when falsy, attempt an allocation via
change_ip — a raising attempt is logged and the iteration ends with the
round_time sleep, a successful one hands its new address (possibly None)
to the probe phase; otherwise the fetched address goes to the probe
phase. -/
def monitor_cycle (sc : CycleScript) (rt port : Nat) (hist : List String) :
    List String × List Action :=
  match get_ip sc.vnicFetch with
  | some s =>
    match check_and_maybe_rotate sc rt port (some s) hist with
    | (h, t) => (h, Action.getVnic :: t)
  | none =>
    match change_ip sc.changeA hist with
    | (.error _, h1, tA) =>
      (h1, Action.getVnic :: (tA ++ [.logAllocFail, .sleep rt]))
    | (.ok (_, newIp), h1, tA) =>
      match check_and_maybe_rotate sc rt port newIp h1 with
      | (h2, t) => (h2, Action.getVnic :: (tA ++ t))

/-- Finitely many scripted iterations of the monitor loop, threading the
history file and concatenating the traces. -/
def monitor_loop (scs : List CycleScript) (rt port : Nat)
    (hist : List String) : List String × List Action :=
  match scs with
  | [] => (hist, [])
  | sc :: rest =>
    match monitor_cycle sc rt port hist with
    | (h1, t1) =>
      match monitor_loop rest rt port h1 with
      | (h2, t2) => (h2, t1 ++ t2)

/-- Number of parameters OCIAPI.__init__ accepts besides self,
src/oracle.py line 122: server_config, compute_client, network_client. -/
def OCIAPI_init_param_count : Nat := 3

/-- Number of positional arguments monitor_server passes when it
constructs OCIAPI, src/oracle.py line 259: server_config, compute_client,
network_client, account_name. -/
def monitor_server_OCIAPI_arg_count : Nat := 4

/-- monitor_server, src/oracle.py lines 256-317: constructing OCIAPI with
a number of positional arguments different from what __init__ accepts
raises TypeError, which the outer except catches and logs, and the
function returns before the loop; otherwise the loop would run over the
scripted iterations. -/
def monitor_server (scs : List CycleScript) (rt port : Nat)
    (hist : List String) : List String × List Action :=
  if monitor_server_OCIAPI_arg_count = OCIAPI_init_param_count then
    monitor_loop scs rt port hist
  else
    (hist, [.logInitFailure])

/-- Recogniser for reachability-probe actions. -/
def isOracleCheck : Action → Bool
  | .oracleCheck _ _ => true
  | _ => false

/-- Recogniser for the entry of a change_ip invocation. -/
def isStartChange : Action → Bool
  | .startChange => true
  | _ => false

/-- The property of a trace that its final action is `a`. -/
def endsWith (t : List Action) (a : Action) : Prop :=
  ∃ p, t = p ++ [a]

/-- Sample change_ip script in which every external call raises. -/
def allErrChange : ChangeIpScript :=
  ⟨.error (), .error (), .error (), .error (), .error ()⟩

/-- Sample change_ip script: no previous address is assigned and the
allocation succeeds, the VNIC reading back 5.6.7.8. -/
def okAllocChange : ChangeIpScript :=
  ⟨.ok ⟨none, "privA"⟩, .ok [], .ok (), .ok (), .ok ⟨some "5.6.7.8", "privA"⟩⟩

/-- Sample change_ip script: the previous address 1.2.3.4 is listed under
OCID ocid-ip1 and deleted, and 5.6.7.8 is allocated. -/
def okRotateChange : ChangeIpScript :=
  ⟨.ok ⟨some "1.2.3.4", "privA"⟩, .ok [⟨"1.2.3.4", "ocid-ip1"⟩], .ok (),
   .ok (), .ok ⟨some "5.6.7.8", "privA"⟩⟩


theorem asString_data (s : String) : List.asString s.data = s := rfl

theorem splitLines_no_newline {cs : List Char} (h : '\n' ∉ cs) :
    splitLines cs = [cs] := by
  induction cs with
  | nil => rfl
  | cons c rest ih =>
    have hc : ¬ c = '\n' := fun hcc => h (hcc ▸ List.mem_cons_self c rest)
    have hr : '\n' ∉ rest := fun hm => h (List.mem_cons_of_mem c hm)
    simp [splitLines, hc, ih hr]

theorem fileLines_append (file : List String) (s : String) :
    fileLines (file ++ [s]) = fileLines file ++ splitLines s.data := by
  induction file with
  | nil => simp [fileLines]
  | cons c rest ih => simp [fileLines, ih]

theorem read_ip_append_clean (file : List String) {s : String}
    (h1 : pyStrip s.data = s.data) (h2 : '\n' ∉ s.data) :
    read_ip (file ++ [s]) = read_ip file ++ [s] := by
  unfold read_ip
  rw [fileLines_append, splitLines_no_newline h2, List.map_append]
  simp [h1, asString_data]

theorem read_ip_record (file : List String) {s : String} (hc : cleanAddr s) :
    read_ip (record_ip (some s) file) = dedupAppend (read_ip file) s := by
  obtain ⟨hne, hstrip, hnl⟩ := hc
  unfold record_ip dedupAppend
  by_cases hmem : s ∈ read_ip file
  · simp [hmem]
  · simp [hmem, hne, read_ip_append_clean file hstrip hnl]

theorem record_ip_mem_noop {s : String} {file : List String}
    (h : s ∈ read_ip file) : record_ip (some s) file = file := by
  simp [record_ip, h]

theorem recordAll_reads (ips : List String) :
    ∀ file, (∀ i ∈ ips, cleanAddr i) →
      read_ip (recordAll ips file) = ips.foldl dedupAppend (read_ip file) := by
  induction ips with
  | nil => intro file _; simp [recordAll]
  | cons i rest ih =>
    intro file h
    have hi : cleanAddr i := h i (List.mem_cons_self i rest)
    have hrest : ∀ j ∈ rest, cleanAddr j :=
      fun j hj => h j (List.mem_cons_of_mem i hj)
    simp only [recordAll, List.foldl_cons]
    rw [show (rest.foldl (fun f j => record_ip (some j) f)
        (record_ip (some i) file)) = recordAll rest (record_ip (some i) file) from rfl]
    rw [ih (record_ip (some i) file) hrest, read_ip_record file hi]

theorem nodup_foldl_dedupAppend (ips : List String) :
    ∀ seen : List String, seen.Nodup → (ips.foldl dedupAppend seen).Nodup := by
  induction ips with
  | nil => intro seen h; simpa using h
  | cons i rest ih =>
    intro seen h
    simp only [List.foldl_cons]
    apply ih
    unfold dedupAppend
    by_cases hmem : i ∈ seen
    · simpa [hmem] using h
    · simp [hmem, List.nodup_append, h]

theorem releaseStep_countP (p : Action → Bool)
    (pubIps : Except Unit (List PublicIp)) (deleteRes : Except Unit Unit)
    (addr : Option String)
    (h1 : p .listPublicIps = false)
    (h2 : ∀ s, p (.warnIpNotFound s) = false)
    (h3 : ∀ i, p (.deletePublicIp i) = false)
    (h4 : ∀ n, p (.sleep n) = false) :
    ((releaseStep pubIps deleteRes addr).2).countP p = 0 := by
  unfold releaseStep
  split <;> try simp
  split <;> try simp
  split <;> try simp [h1]
  split
  · split
    · simp [h1, h2]
    · split <;> simp [h1, h3, h4]
  · simp [h1, h2]

theorem change_ip_countP (p : Action → Bool) (sc : ChangeIpScript)
    (hist : List String)
    (hg : p .getVnic = false)
    (h1 : p .listPublicIps = false)
    (h2 : ∀ s, p (.warnIpNotFound s) = false)
    (h3 : ∀ i, p (.deletePublicIp i) = false)
    (h4 : ∀ n, p (.sleep n) = false)
    (h6 : ∀ i, p (.createPublicIp i) = false)
    (h7 : ∀ i, p (.recordIp i) = false) :
    ((change_ip sc hist).2.2).countP p = (if p .startChange then 1 else 0) := by
  have hrel := releaseStep_countP p sc.publicIps sc.deleteRes
  unfold change_ip
  split
  · simp [List.countP_cons, hg]
  · rename_i v heq
    split
    · rename_i tr hrs
      have : tr = (releaseStep sc.publicIps sc.deleteRes v.public_ip).2 := by
        rw [hrs]
      simp [List.countP_append, List.countP_cons, hg, this,
        hrel v.public_ip h1 h2 h3 h4]
    · rename_i u tr hrs
      have htr : tr = (releaseStep sc.publicIps sc.deleteRes v.public_ip).2 := by
        rw [hrs]
      split
      · simp [List.countP_append, List.countP_cons, hg, htr,
          hrel v.public_ip h1 h2 h3 h4, h6]
      · split <;>
          simp [List.countP_append, List.countP_cons, hg, htr,
            hrel v.public_ip h1 h2 h3 h4, h6, h4, h7]

theorem change_ip_countP_oracle (sc : ChangeIpScript) (hist : List String) :
    ((change_ip sc hist).2.2).countP isOracleCheck = 0 := by
  have := change_ip_countP isOracleCheck sc hist rfl rfl
    (fun _ => rfl) (fun _ => rfl) (fun _ => rfl) (fun _ => rfl) (fun _ => rfl)
  simpa [isOracleCheck] using this

theorem change_ip_countP_start (sc : ChangeIpScript) (hist : List String) :
    ((change_ip sc hist).2.2).countP isStartChange = 1 := by
  have := change_ip_countP isStartChange sc hist rfl rfl
    (fun _ => rfl) (fun _ => rfl) (fun _ => rfl) (fun _ => rfl) (fun _ => rfl)
  simpa [isStartChange] using this

theorem change_ip_no_oracleCheck (sc : ChangeIpScript) (hist : List String)
    (ip : Option String) (p : Nat) :
    Action.oracleCheck ip p ∉ (change_ip sc hist).2.2 := by
  intro hmem
  have h0 := change_ip_countP_oracle sc hist
  have := (List.countP_eq_zero.mp h0) _ hmem
  simp [isOracleCheck] at this

theorem change_ip_take_two (sc : ChangeIpScript) (hist : List String) :
    ((change_ip sc hist).2.2).take 2 = [.startChange, .getVnic] := by
  unfold change_ip
  split
  · rfl
  · split
    · simp
    · split
      · simp
      · split <;> simp

theorem change_ip_create_error (sc : ChangeIpScript) (hist : List String)
    (h : sc.createRes = .error ()) :
    (change_ip sc hist).1 = .error () ∧ (change_ip sc hist).2.1 = hist := by
  unfold change_ip
  split
  · simp
  · split
    · simp
    · rw [h]
      simp

/-- C2: remote_check returns reachable (true) exactly when the HTTP
response has status 200 and a body that strips to the literal token
"True"; a 200 body stripping to "False", any other body, any non-200
status, and a raised timeout or network error all yield false, and the
embedding as a total Bool function reflects that the Python try/except
never lets an exception reach the caller. -/
theorem remote_check_spec (r : HttpResult) :
    remote_check r = true ↔
      ∃ body, r = .ok 200 body ∧ pyStripStr body = "True" := by
  constructor
  · intro h
    cases r with
    | exn => simp [remote_check] at h
    | ok status body =>
      by_cases hs : status = 200
      · subst hs
        refine ⟨body, rfl, ?_⟩
        by_cases ht : pyStripStr body = "True"
        · exact ht
        · by_cases hf : pyStripStr body = "False" <;>
            simp [remote_check, ht, hf] at h
      · simp [remote_check, hs] at h
  · rintro ⟨body, rfl, hb⟩
    simp [remote_check, hb]

/-- C2 witness: a 200 response whose body strips to "True" is reachable. -/
theorem remote_check_spec_witness :
    remote_check (.ok 200 " True ") = true :=
  (remote_check_spec (.ok 200 " True ")).mpr ⟨" True ", rfl, by decide⟩

/-- C3 counterexample: recording the address "a " (trailing blank) twice
grows the store twice, because the store reads back the stripped line "a"
and the membership test therefore misses on the second call.  This
refutes the claim that two record_ip calls with the same address always
leave the store as after the first call. -/
theorem record_ip_whitespace_not_idempotent :
    record_ip (some "a ") (record_ip (some "a ") []) ≠
      record_ip (some "a ") [] := by
  decide

/-- C3 amended: an address already present among the lines read back is
never re-appended (record_ip is then a no-op); and for addresses that
survive the file round trip (nonempty, strip-fixed, no embedded newline)
record_ip is idempotent and any sequence of record_ip calls leaves a
store that reads back as the distinct recorded addresses in
first-insertion order without duplicates. -/
theorem record_ip_clean_behavior :
    (∀ (s : String) (file : List String), s ∈ read_ip file →
       record_ip (some s) file = file)
    ∧ (∀ (s : String) (file : List String), cleanAddr s →
       record_ip (some s) (record_ip (some s) file) = record_ip (some s) file)
    ∧ (∀ ips : List String, (∀ i ∈ ips, cleanAddr i) →
       read_ip (recordAll ips []) = distinctInOrder ips
       ∧ (distinctInOrder ips).Nodup) := by
  refine ⟨fun s file h => record_ip_mem_noop h, ?_, ?_⟩
  · intro s file hc
    by_cases hmem : s ∈ read_ip file
    · rw [record_ip_mem_noop hmem, record_ip_mem_noop hmem]
    · apply record_ip_mem_noop
      rw [read_ip_record file hc]
      simp [dedupAppend, hmem]
  · intro ips h
    constructor
    · have hr := recordAll_reads ips [] h
      have h0 : read_ip [] = [] := rfl
      rw [h0] at hr
      exact hr
    · exact nodup_foldl_dedupAppend ips [] List.nodup_nil

/-- C3 witness: a concrete clean address is recorded idempotently, and a
concrete sequence with a repeat reads back deduplicated in insertion
order. -/
theorem record_ip_clean_behavior_witness :
    record_ip (some "1.2.3.4") (record_ip (some "1.2.3.4") []) =
      record_ip (some "1.2.3.4") []
    ∧ read_ip (recordAll ["1.2.3.4", "5.6.7.8", "1.2.3.4"] []) =
      distinctInOrder ["1.2.3.4", "5.6.7.8", "1.2.3.4"] :=
  ⟨record_ip_clean_behavior.2.1 "1.2.3.4" [] (by decide),
   (record_ip_clean_behavior.2.2 ["1.2.3.4", "5.6.7.8", "1.2.3.4"]
     (by decide)).1⟩

theorem endsWith_cons (x : Action) {t : List Action} {a : Action}
    (h : endsWith t a) : endsWith (x :: t) a := by
  obtain ⟨p, rfl⟩ := h
  exact ⟨x :: p, rfl⟩

theorem endsWith_append_left (l : List Action) {t : List Action} {a : Action}
    (h : endsWith t a) : endsWith (l ++ t) a := by
  obtain ⟨p, rfl⟩ := h
  exact ⟨l ++ p, by simp⟩

theorem change_ip_trace_shape (sc : ChangeIpScript) (hist : List String) :
    ∃ t, (change_ip sc hist).2.2 = .startChange :: .getVnic :: t := by
  unfold change_ip
  split
  · exact ⟨[], rfl⟩
  · split
    · rename_i tr _
      exact ⟨tr, rfl⟩
    · split
      · exact ⟨_, rfl⟩
      · split
        · exact ⟨_, rfl⟩
        · exact ⟨_, rfl⟩

theorem cmr_reachable (sc : CycleScript) (rt port : Nat) (ip : Option String)
    (hist : List String) (h : remote_check sc.oracle1 = true) :
    check_and_maybe_rotate sc rt port ip hist =
      (hist, [.oracleCheck ip port, .sleep rt]) := by
  unfold check_and_maybe_rotate
  rw [h]
  simp

theorem cmr_rotate_fail (sc : CycleScript) (rt port : Nat) (ip : Option String)
    (hist : List String) (h : remote_check sc.oracle1 = false)
    {h1 : List String} {tB : List Action}
    (hB : change_ip sc.changeB hist = (.error (), h1, tB)) :
    check_and_maybe_rotate sc rt port ip hist =
      (h1, .oracleCheck ip port :: (tB ++ [.logChangeFail, .sleep rt])) := by
  unfold check_and_maybe_rotate
  rw [h, hB]
  simp

theorem cmr_rotate_ok (sc : CycleScript) (rt port : Nat) (ip : Option String)
    (hist : List String) (h : remote_check sc.oracle1 = false)
    {old : String} {newIp : Option String} {h1 : List String} {tB : List Action}
    (hB : change_ip sc.changeB hist = (.ok (old, newIp), h1, tB)) :
    check_and_maybe_rotate sc rt port ip hist =
      (h1, .oracleCheck ip port :: (tB ++
        ([.oracleCheck newIp port] ++
         (if remote_check sc.oracle2 then [.logNewIpOk] else [.logNewIpStillFail])
         ++ [.sleep rt]))) := by
  unfold check_and_maybe_rotate
  rw [h, hB]
  by_cases h2 : remote_check sc.oracle2 <;> simp [h2]

theorem endsWith_pair (a b : Action) : endsWith [a, b] b := ⟨[a], rfl⟩

theorem endsWith_triple (a b c : Action) : endsWith [a, b, c] c := ⟨[a, b], rfl⟩

theorem cmr_ends_sleep (sc : CycleScript) (rt port : Nat) (ip : Option String)
    (hist : List String) :
    endsWith (check_and_maybe_rotate sc rt port ip hist).2 (.sleep rt) := by
  unfold check_and_maybe_rotate
  split
  · exact ⟨[.oracleCheck ip port], rfl⟩
  · split
    · exact endsWith_cons _ (endsWith_append_left _ (endsWith_pair _ _))
    · split
      · exact endsWith_cons _ (endsWith_append_left _ (endsWith_triple _ _ _))
      · exact endsWith_cons _ (endsWith_append_left _ (endsWith_triple _ _ _))

theorem monitor_cycle_some (sc : CycleScript) (rt port : Nat)
    (hist : List String) {s : String} (h : get_ip sc.vnicFetch = some s) :
    monitor_cycle sc rt port hist =
      ((check_and_maybe_rotate sc rt port (some s) hist).1,
       .getVnic :: (check_and_maybe_rotate sc rt port (some s) hist).2) := by
  unfold monitor_cycle
  rw [h]

theorem monitor_cycle_none_err (sc : CycleScript) (rt port : Nat)
    (hist : List String) (h : get_ip sc.vnicFetch = none)
    {h1 : List String} {tA : List Action}
    (hA : change_ip sc.changeA hist = (.error (), h1, tA)) :
    monitor_cycle sc rt port hist =
      (h1, .getVnic :: (tA ++ [.logAllocFail, .sleep rt])) := by
  unfold monitor_cycle
  rw [h, hA]

theorem monitor_cycle_none_ok (sc : CycleScript) (rt port : Nat)
    (hist : List String) (h : get_ip sc.vnicFetch = none)
    {old : String} {newIp : Option String} {h1 : List String} {tA : List Action}
    (hA : change_ip sc.changeA hist = (.ok (old, newIp), h1, tA)) :
    monitor_cycle sc rt port hist =
      ((check_and_maybe_rotate sc rt port newIp h1).1,
       .getVnic :: (tA ++ (check_and_maybe_rotate sc rt port newIp h1).2)) := by
  unfold monitor_cycle
  rw [h, hA]

theorem monitor_cycle_ends_sleep (sc : CycleScript) (rt port : Nat)
    (hist : List String) :
    endsWith (monitor_cycle sc rt port hist).2 (.sleep rt) := by
  rcases hg : get_ip sc.vnicFetch with _ | s
  · rcases hA : change_ip sc.changeA hist with ⟨r, h1, tA⟩
    cases r with
    | error e =>
      cases e
      rw [monitor_cycle_none_err sc rt port hist hg hA]
      exact endsWith_cons _ (endsWith_append_left _ ⟨[.logAllocFail], rfl⟩)
    | ok pr =>
      rcases pr with ⟨old, newIp⟩
      rw [monitor_cycle_none_ok sc rt port hist hg hA]
      exact endsWith_cons _
        (endsWith_append_left _ (cmr_ends_sleep sc rt port newIp h1))
  · rw [monitor_cycle_some sc rt port hist hg]
    exact endsWith_cons _ (cmr_ends_sleep sc rt port (some s) hist)

theorem monitor_cycle_noip_take_two (sc : CycleScript) (rt port : Nat)
    (hist : List String) (h : get_ip sc.vnicFetch = none) :
    (monitor_cycle sc rt port hist).2.take 2 = [.getVnic, .startChange] := by
  obtain ⟨t0, hshape⟩ := change_ip_trace_shape sc.changeA hist
  rcases hA : change_ip sc.changeA hist with ⟨r, h1, tA⟩
  have htA : tA = .startChange :: .getVnic :: t0 := by
    rw [hA] at hshape
    exact hshape
  cases r with
  | error e =>
    cases e
    rw [monitor_cycle_none_err sc rt port hist h hA, htA]
    rfl
  | ok pr =>
    rcases pr with ⟨old, newIp⟩
    rw [monitor_cycle_none_ok sc rt port hist h hA, htA]
    rfl

/-- C1: monitor_server passes four positional arguments to the OCIAPI
constructor while OCIAPI.__init__ accepts only three besides self, so for
every server configuration, global configuration, and pair of clients the
construction raises TypeError, the outer handler logs the initialization
failure, and monitor_server returns without a single poll action: the
history is untouched and the trace holds no fetch, no oracle check, and
no rotation, whatever iterations were scripted. -/
theorem monitor_server_init_type_error (scs : List CycleScript)
    (rt port : Nat) (hist : List String) :
    monitor_server scs rt port hist = (hist, [.logInitFailure])
    ∧ Action.getVnic ∉ (monitor_server scs rt port hist).2
    ∧ (∀ ip p, Action.oracleCheck ip p ∉ (monitor_server scs rt port hist).2)
    ∧ Action.startChange ∉ (monitor_server scs rt port hist).2 := by
  have h : monitor_server scs rt port hist = (hist, [.logInitFailure]) := by
    unfold monitor_server monitor_server_OCIAPI_arg_count OCIAPI_init_param_count
    simp
  refine ⟨h, ?_, fun ip p => ?_, ?_⟩ <;> rw [h] <;> simp

/-- C4: within one monitor cycle, when the fetch yields no assigned
address the next external action is the allocation attempt via change_ip
and never an oracle probe, and when that attempt raises the failure is
logged, the cycle ends with the poll-interval sleep, and no oracle probe
occurs anywhere in the cycle. -/
theorem monitor_cycle_no_ip_allocates_first (sc : CycleScript)
    (rt port : Nat) (hist : List String)
    (h : get_ip sc.vnicFetch = none) :
    (monitor_cycle sc rt port hist).2.take 2 = [.getVnic, .startChange]
    ∧ (∀ (h1 : List String) (tA : List Action),
        change_ip sc.changeA hist = (.error (), h1, tA) →
        monitor_cycle sc rt port hist =
          (h1, .getVnic :: (tA ++ [.logAllocFail, .sleep rt]))
        ∧ ∀ ip p, Action.oracleCheck ip p ∉ (monitor_cycle sc rt port hist).2) := by
  refine ⟨monitor_cycle_noip_take_two sc rt port hist h, ?_⟩
  intro h1 tA hA
  have heq := monitor_cycle_none_err sc rt port hist h hA
  refine ⟨heq, ?_⟩
  intro ip p hmem
  have hno := change_ip_no_oracleCheck sc.changeA hist ip p
  rw [hA] at hno
  rw [heq] at hmem
  simp at hmem
  exact hno hmem

/-- C4 witness: with the fetch raising and every allocation call raising,
the cycle trace is exactly fetch, rotation entry, rotation fetch, failure
log, poll sleep. -/
theorem monitor_cycle_no_ip_allocates_first_witness :
    (monitor_cycle ⟨.error (), allErrChange, .exn, allErrChange, .exn⟩
        600 443 []).2.take 2 = [.getVnic, .startChange]
    ∧ monitor_cycle ⟨.error (), allErrChange, .exn, allErrChange, .exn⟩
        600 443 [] =
      ([], .getVnic :: ([.startChange, .getVnic] ++ [.logAllocFail, .sleep 600])) := by
  have h := monitor_cycle_no_ip_allocates_first
    ⟨.error (), allErrChange, .exn, allErrChange, .exn⟩ 600 443 [] (by decide)
  exact ⟨h.1, (h.2 [] [.startChange, .getVnic] (by decide)).1⟩

/-- C10: OCIAPI.get_ip never raises; a raising provider call is absorbed
into the same result None that a VNIC without a public address produces,
so the caller cannot distinguish the two, and a failing fetch therefore
sends the monitor into an allocation attempt rather than a plain cycle
abort. -/
theorem get_ip_absorbs_errors :
    get_ip (.error ()) = none
    ∧ (∀ pid, get_ip (.ok ⟨none, pid⟩) = none)
    ∧ (∀ (sc : CycleScript) (rt port : Nat) (hist : List String),
        sc.vnicFetch = .error () →
        (monitor_cycle sc rt port hist).2.take 2 = [.getVnic, .startChange]) := by
  refine ⟨rfl, fun pid => rfl, ?_⟩
  intro sc rt port hist hf
  apply monitor_cycle_noip_take_two
  rw [hf]
  rfl

/-- C10 witness: a failing fetch leads into the rotation entry on a
concrete script. -/
theorem get_ip_absorbs_errors_witness :
    (monitor_cycle ⟨.error (), allErrChange, .exn, allErrChange, .exn⟩
        600 443 []).2.take 2 = [.getVnic, .startChange] :=
  get_ip_absorbs_errors.2.2 ⟨.error (), allErrChange, .exn, allErrChange, .exn⟩
    600 443 [] rfl

/-- C5: when the VNIC holds an address but the region listing has no
matching public-IP object, change_ip does not abort: it logs the
not-found warning, performs no delete, and proceeds directly to the
allocation of a new ephemeral address. -/
theorem change_ip_not_found_proceeds (sc : ChangeIpScript)
    (hist : List String) (v : Vnic) (s : String) (ips : List PublicIp)
    (hv : sc.vnic1 = .ok v) (hip : v.public_ip = some s) (hs : s ≠ "")
    (hl : sc.publicIps = .ok ips) (hf : findPublicIpId ips s = none) :
    (∃ t, (change_ip sc hist).2.2 =
        [.startChange, .getVnic, .listPublicIps, .warnIpNotFound s,
         .createPublicIp v.private_ip_id] ++ t)
    ∧ (∀ pid, Action.deletePublicIp pid ∉ (change_ip sc hist).2.2) := by
  have hrel : releaseStep sc.publicIps sc.deleteRes v.public_ip
      = (.ok (), [.listPublicIps, .warnIpNotFound s]) := by
    rw [hip, hl]
    unfold releaseStep
    simp [hs, hf]
  rcases hc : sc.createRes with u | u
  · have hval : change_ip sc hist =
        (.error (), hist,
         [.startChange, .getVnic, .listPublicIps, .warnIpNotFound s,
          .createPublicIp v.private_ip_id]) := by
      simp only [change_ip, hv, hrel, hc]
      simp
    rw [hval]
    exact ⟨⟨[], by simp⟩, fun pid => by simp⟩
  · rcases h2 : sc.vnic2 with w | v2
    · have hval : change_ip sc hist =
          (.error (), hist,
           [.startChange, .getVnic, .listPublicIps, .warnIpNotFound s,
            .createPublicIp v.private_ip_id, .sleep 15, .getVnic]) := by
        simp only [change_ip, hv, hrel, hc, h2]
        simp
      rw [hval]
      exact ⟨⟨[.sleep 15, .getVnic], by simp⟩, fun pid => by simp⟩
    · have hval : change_ip sc hist =
          (.ok (orUnassigned v.public_ip, v2.public_ip),
           record_ip v2.public_ip hist,
           [.startChange, .getVnic, .listPublicIps, .warnIpNotFound s,
            .createPublicIp v.private_ip_id, .sleep 15, .getVnic,
            .recordIp v2.public_ip]) := by
        simp only [change_ip, hv, hrel, hc, h2]
        simp
      rw [hval]
      exact ⟨⟨[.sleep 15, .getVnic, .recordIp v2.public_ip], by simp⟩,
        fun pid => by simp⟩

/-- C5 witness: with address 1.2.3.4 on the VNIC and an empty region
listing, the rotation warns, skips the delete, and reaches the
allocation call. -/
theorem change_ip_not_found_proceeds_witness :
    (∃ t, (change_ip ⟨.ok ⟨some "1.2.3.4", "privA"⟩, .ok [], .ok (), .ok (),
        .ok ⟨some "5.6.7.8", "privA"⟩⟩ []).2.2 =
      [.startChange, .getVnic, .listPublicIps, .warnIpNotFound "1.2.3.4",
       .createPublicIp "privA"] ++ t)
    ∧ (∀ pid, Action.deletePublicIp pid ∉
        (change_ip ⟨.ok ⟨some "1.2.3.4", "privA"⟩, .ok [], .ok (), .ok (),
          .ok ⟨some "5.6.7.8", "privA"⟩⟩ []).2.2) :=
  change_ip_not_found_proceeds _ [] ⟨some "1.2.3.4", "privA"⟩ "1.2.3.4" []
    rfl rfl (by decide) rfl (by decide)

/-- C6: a successful change_ip performs exactly, in order: release of the
current address when one exists (list, delete, 10-second wait), the
allocation of a new ephemeral address, the 15-second wait, the read-back
of the endpoint address, the history append of the read-back value, and
returns the pair of the previous address (or the unassigned marker when
none existed) and the new address; and a change_ip invocation that raises
during the rotation path of a cycle is reported by the monitor, which
ends the cycle with the failure log and the poll sleep instead of
escalating. -/
theorem change_ip_success_sequence (sc : ChangeIpScript)
    (hist : List String) :
    (∀ (v v2 : Vnic) (s pid : String) (ips : List PublicIp),
       sc.vnic1 = .ok v → v.public_ip = some s → s ≠ "" →
       sc.publicIps = .ok ips → findPublicIpId ips s = some pid → pid ≠ "" →
       sc.deleteRes = .ok () → sc.createRes = .ok () → sc.vnic2 = .ok v2 →
       change_ip sc hist =
         (.ok (s, v2.public_ip), record_ip v2.public_ip hist,
          [.startChange, .getVnic, .listPublicIps, .deletePublicIp pid,
           .sleep 10, .createPublicIp v.private_ip_id, .sleep 15, .getVnic,
           .recordIp v2.public_ip]))
    ∧ (∀ (v v2 : Vnic),
       sc.vnic1 = .ok v → v.public_ip = none →
       sc.createRes = .ok () → sc.vnic2 = .ok v2 →
       change_ip sc hist =
         (.ok (unassignedMarker, v2.public_ip), record_ip v2.public_ip hist,
          [.startChange, .getVnic, .createPublicIp v.private_ip_id, .sleep 15,
           .getVnic, .recordIp v2.public_ip]))
    ∧ (∀ (csc : CycleScript) (rt port : Nat) (s : String),
       get_ip csc.vnicFetch = some s → remote_check csc.oracle1 = false →
       (change_ip csc.changeB hist).1 = .error () →
       ∃ t, (monitor_cycle csc rt port hist).2 =
         t ++ [.logChangeFail, .sleep rt]) := by
  refine ⟨?_, ?_, ?_⟩
  · intro v v2 s pid ips hv hip hs hl hfind hpid hd hc h2
    have hrel : releaseStep sc.publicIps sc.deleteRes v.public_ip
        = (.ok (), [.listPublicIps, .deletePublicIp pid, .sleep 10]) := by
      rw [hip, hl]
      unfold releaseStep
      simp [hs, hfind, hpid, hd]
    simp only [change_ip, hv, hrel, hc, h2]
    simp [orUnassigned, hip, hs]
  · intro v v2 hv hip hc h2
    have hrel : releaseStep sc.publicIps sc.deleteRes v.public_ip
        = (.ok (), []) := by
      rw [hip]
      rfl
    simp only [change_ip, hv, hrel, hc, h2]
    simp [orUnassigned, hip]
  · intro csc rt port s hfetch hun herr
    rcases hB : change_ip csc.changeB hist with ⟨r, h1, tB⟩
    rw [hB] at herr
    cases r with
    | ok pr => exact absurd herr (by simp)
    | error e =>
      cases e
      rw [monitor_cycle_some csc rt port hist hfetch,
        cmr_rotate_fail csc rt port (some s) hist hun hB]
      exact ⟨.getVnic :: .oracleCheck (some s) port :: tB, by simp⟩

/-- C6 witness: the full successful rotation sequence on concrete data,
previous address 1.2.3.4 released under OCID ocid-ip1 and new address
5.6.7.8 read back and recorded. -/
theorem change_ip_success_sequence_witness :
    change_ip okRotateChange [] =
      (.ok ("1.2.3.4", some "5.6.7.8"), record_ip (some "5.6.7.8") [],
       [.startChange, .getVnic, .listPublicIps, .deletePublicIp "ocid-ip1",
        .sleep 10, .createPublicIp "privA", .sleep 15, .getVnic,
        .recordIp (some "5.6.7.8")]) :=
  (change_ip_success_sequence okRotateChange []).1
    ⟨some "1.2.3.4", "privA"⟩ ⟨some "5.6.7.8", "privA"⟩ "1.2.3.4" "ocid-ip1"
    [⟨"1.2.3.4", "ocid-ip1"⟩] rfl rfl (by decide) rfl (by decide) (by decide)
    rfl rfl rfl

/-- C7: in a cycle where the fetched address is probed unreachable and
the triggered rotation succeeds, the oracle is re-invoked on the new
address exactly once, and whatever that re-probe returns, no second
rotation occurs in the cycle: the trace holds exactly one rotation entry
and two probes and proceeds to the poll sleep. -/
theorem monitor_cycle_recheck_once (sc : CycleScript) (rt port : Nat)
    (hist : List String) (s old : String) (newIp : Option String)
    (h1 : List String) (tB : List Action)
    (hfetch : get_ip sc.vnicFetch = some s)
    (hun : remote_check sc.oracle1 = false)
    (hrot : change_ip sc.changeB hist = (.ok (old, newIp), h1, tB)) :
    monitor_cycle sc rt port hist =
      (h1, .getVnic :: .oracleCheck (some s) port ::
        (tB ++ ([.oracleCheck newIp port] ++
          (if remote_check sc.oracle2 then [.logNewIpOk]
           else [.logNewIpStillFail]) ++ [.sleep rt])))
    ∧ (monitor_cycle sc rt port hist).2.countP isStartChange = 1
    ∧ (monitor_cycle sc rt port hist).2.countP isOracleCheck = 2 := by
  have heq : monitor_cycle sc rt port hist =
      (h1, .getVnic :: .oracleCheck (some s) port ::
        (tB ++ ([.oracleCheck newIp port] ++
          (if remote_check sc.oracle2 then [.logNewIpOk]
           else [.logNewIpStillFail]) ++ [.sleep rt]))) := by
    rw [monitor_cycle_some sc rt port hist hfetch,
      cmr_rotate_ok sc rt port (some s) hist hun hrot]
  refine ⟨heq, ?_, ?_⟩
  · have hstart := change_ip_countP_start sc.changeB hist
    rw [hrot] at hstart
    rw [heq]
    by_cases h2 : remote_check sc.oracle2 <;>
      simp [h2, List.countP_cons, List.countP_append, hstart, isStartChange]
  · have horacle := change_ip_countP_oracle sc.changeB hist
    rw [hrot] at horacle
    rw [heq]
    by_cases h2 : remote_check sc.oracle2 <;>
      simp [h2, List.countP_cons, List.countP_append, horacle, isOracleCheck]

/-- C7 witness: unreachable 1.2.3.4 triggers one successful rotation to
5.6.7.8, one diagnostic re-probe, and no second rotation. -/
theorem monitor_cycle_recheck_once_witness :
    (monitor_cycle ⟨.ok ⟨some "1.2.3.4", "privA"⟩, allErrChange,
        .ok 200 "False", okRotateChange, .ok 200 "True"⟩ 600 443
        []).2.countP isStartChange = 1
    ∧ (monitor_cycle ⟨.ok ⟨some "1.2.3.4", "privA"⟩, allErrChange,
        .ok 200 "False", okRotateChange, .ok 200 "True"⟩ 600 443
        []).2.countP isOracleCheck = 2 := by
  have h := monitor_cycle_recheck_once
    ⟨.ok ⟨some "1.2.3.4", "privA"⟩, allErrChange, .ok 200 "False",
     okRotateChange, .ok 200 "True"⟩ 600 443 [] "1.2.3.4" "1.2.3.4"
    (some "5.6.7.8") ["5.6.7.8"]
    [.startChange, .getVnic, .listPublicIps, .deletePublicIp "ocid-ip1",
     .sleep 10, .createPublicIp "privA", .sleep 15, .getVnic,
     .recordIp (some "5.6.7.8")]
    (by decide) (by decide) (by decide)
  exact ⟨h.2.1, h.2.2⟩

/-- C8 counterexample: with the fetch call raising and everything
afterwards succeeding, the cycle is not aborted by the fetch failure: the
monitor goes on to allocate an address (createPublicIp appears in the
trace after the failed fetch) and to probe the oracle, refuting the claim
that a failing fetch aborts the current cycle. -/
theorem monitor_cycle_fetch_failure_continues :
    (monitor_cycle ⟨.error (), okAllocChange, .ok 200 "True", allErrChange,
        .exn⟩ 600 443 []).2 =
      [.getVnic, .startChange, .getVnic, .createPublicIp "privA", .sleep 15,
       .getVnic, .recordIp (some "5.6.7.8"),
       .oracleCheck (some "5.6.7.8") 443, .sleep 600]
    ∧ Action.createPublicIp "privA" ∈
      (monitor_cycle ⟨.error (), okAllocChange, .ok 200 "True", allErrChange,
        .exn⟩ 600 443 []).2
    ∧ Action.oracleCheck (some "5.6.7.8") 443 ∈
      (monitor_cycle ⟨.error (), okAllocChange, .ok 200 "True", allErrChange,
        .exn⟩ 600 443 []).2 := by
  refine ⟨by decide, ?_, ?_⟩ <;> decide

/-- C8 amended: every cycle, whatever its scripted failures, reaches the
poll-interval sleep as its final action with no cycle-local retry; a
raising fetch is absorbed as "no address assigned" and leads into an
allocation attempt; a raising oracle probe is absorbed as unreachable and
leads into a rotation attempt; and a raising rotation (release or
allocation step) aborts the cycle, which ends with the failure log and
the poll sleep. -/
theorem monitor_cycle_failure_containment (sc : CycleScript)
    (rt port : Nat) (hist : List String) :
    endsWith (monitor_cycle sc rt port hist).2 (.sleep rt)
    ∧ (sc.vnicFetch = .error () →
        (monitor_cycle sc rt port hist).2.take 2 = [.getVnic, .startChange])
    ∧ (∀ s, get_ip sc.vnicFetch = some s → sc.oracle1 = .exn →
        (monitor_cycle sc rt port hist).2.take 3 =
          [.getVnic, .oracleCheck (some s) port, .startChange])
    ∧ (∀ (s : String) (h1 : List String) (tB : List Action),
        get_ip sc.vnicFetch = some s → remote_check sc.oracle1 = false →
        change_ip sc.changeB hist = (.error (), h1, tB) →
        monitor_cycle sc rt port hist =
          (h1, .getVnic :: .oracleCheck (some s) port ::
            (tB ++ [.logChangeFail, .sleep rt]))) := by
  refine ⟨monitor_cycle_ends_sleep sc rt port hist, ?_, ?_, ?_⟩
  · intro hf
    apply monitor_cycle_noip_take_two
    rw [hf]
    rfl
  · intro s hfetch hexn
    have hun : remote_check sc.oracle1 = false := by
      rw [hexn]
      rfl
    obtain ⟨t0, hshape⟩ := change_ip_trace_shape sc.changeB hist
    rcases hB : change_ip sc.changeB hist with ⟨r, h1, tB⟩
    have htB : tB = .startChange :: .getVnic :: t0 := by
      rw [hB] at hshape
      exact hshape
    rw [monitor_cycle_some sc rt port hist hfetch]
    cases r with
    | error e =>
      cases e
      rw [cmr_rotate_fail sc rt port (some s) hist hun hB, htB]
      rfl
    | ok pr =>
      rcases pr with ⟨o, newIp⟩
      rw [cmr_rotate_ok sc rt port (some s) hist hun hB, htB]
      rfl
  · intro s h1 tB hfetch hun hB
    rw [monitor_cycle_some sc rt port hist hfetch,
      cmr_rotate_fail sc rt port (some s) hist hun hB]

/-- C8 witness: on a concrete script whose rotation raises after an
unreachable probe, the cycle ends with the failure log followed by the
poll sleep, and the trace ends with the sleep. -/
theorem monitor_cycle_failure_containment_witness :
    endsWith (monitor_cycle ⟨.ok ⟨some "1.2.3.4", "privA"⟩, allErrChange,
        .ok 200 "False", allErrChange, .exn⟩ 600 443 []).2 (.sleep 600)
    ∧ monitor_cycle ⟨.ok ⟨some "1.2.3.4", "privA"⟩, allErrChange,
        .ok 200 "False", allErrChange, .exn⟩ 600 443 [] =
      ([], .getVnic :: .oracleCheck (some "1.2.3.4") 443 ::
        ([.startChange, .getVnic] ++ [.logChangeFail, .sleep 600])) := by
  have h := monitor_cycle_failure_containment
    ⟨.ok ⟨some "1.2.3.4", "privA"⟩, allErrChange, .ok 200 "False",
     allErrChange, .exn⟩ 600 443 []
  exact ⟨h.1, h.2.2.2 "1.2.3.4" [] [.startChange, .getVnic]
    (by decide) (by decide) (by decide)⟩

/-- C9: when every allocation call (create_public_ip inside change_ip)
raises, a cycle leaves the history store unchanged, ends with the poll
sleep (the retry happens only on the next tick), and, whenever a rotation
was attempted at all (no address assigned, or probe unreachable), logs
the failure; over any run of such cycles the history is still exactly the
initial one. -/
theorem monitor_cycle_alloc_throws (rt port : Nat) (hist : List String) :
    (∀ sc : CycleScript,
       sc.changeA.createRes = .error () → sc.changeB.createRes = .error () →
       (monitor_cycle sc rt port hist).1 = hist
       ∧ endsWith (monitor_cycle sc rt port hist).2 (.sleep rt)
       ∧ ((get_ip sc.vnicFetch = none ∨ remote_check sc.oracle1 = false) →
           .logAllocFail ∈ (monitor_cycle sc rt port hist).2
           ∨ .logChangeFail ∈ (monitor_cycle sc rt port hist).2))
    ∧ (∀ scs : List CycleScript,
       (∀ c ∈ scs, c.changeA.createRes = .error ()
         ∧ c.changeB.createRes = .error ()) →
       (monitor_loop scs rt port hist).1 = hist) := by
  have percycle : ∀ (h : List String) (sc : CycleScript),
      sc.changeA.createRes = .error () → sc.changeB.createRes = .error () →
      (monitor_cycle sc rt port h).1 = h := by
    intro h sc hA hB
    obtain ⟨eA, eAh⟩ := change_ip_create_error sc.changeA h hA
    obtain ⟨eB, eBh⟩ := change_ip_create_error sc.changeB h hB
    rcases hg : get_ip sc.vnicFetch with _ | s
    · rcases hAeq : change_ip sc.changeA h with ⟨r, h1, tA⟩
      rw [hAeq] at eA eAh
      cases r with
      | error e =>
        cases e
        rw [monitor_cycle_none_err sc rt port h hg hAeq, eAh]
      | ok pr => exact absurd eA (by simp)
    · by_cases hr : remote_check sc.oracle1
      · rw [monitor_cycle_some sc rt port h hg,
          cmr_reachable sc rt port (some s) h hr]
      · rcases hBeq : change_ip sc.changeB h with ⟨r, h1, tB⟩
        rw [hBeq] at eB eBh
        cases r with
        | error e =>
          cases e
          rw [monitor_cycle_some sc rt port h hg,
            cmr_rotate_fail sc rt port (some s) h
              (Bool.not_eq_true _ ▸ eq_false_of_ne_true hr) hBeq, eBh]
        | ok pr => exact absurd eB (by simp)
  refine ⟨?_, ?_⟩
  · intro sc hA hB
    refine ⟨percycle hist sc hA hB, monitor_cycle_ends_sleep sc rt port hist, ?_⟩
    intro hrot
    obtain ⟨eA, eAh⟩ := change_ip_create_error sc.changeA hist hA
    obtain ⟨eB, eBh⟩ := change_ip_create_error sc.changeB hist hB
    rcases hg : get_ip sc.vnicFetch with _ | s
    · rcases hAeq : change_ip sc.changeA hist with ⟨r, h1, tA⟩
      rw [hAeq] at eA
      cases r with
      | error e =>
        cases e
        rw [monitor_cycle_none_err sc rt port hist hg hAeq]
        left
        simp
      | ok pr => exact absurd eA (by simp)
    · have hun : remote_check sc.oracle1 = false := by
        rcases hrot with hn | hf
        · rw [hg] at hn
          exact absurd hn (by simp)
        · exact hf
      rcases hBeq : change_ip sc.changeB hist with ⟨r, h1, tB⟩
      rw [hBeq] at eB
      cases r with
      | error e =>
        cases e
        rw [monitor_cycle_some sc rt port hist hg,
          cmr_rotate_fail sc rt port (some s) hist hun hBeq]
        right
        simp
      | ok pr => exact absurd eB (by simp)
  · intro scs hall
    induction scs with
    | nil => rfl
    | cons c rest ih =>
      have hc := hall c (List.mem_cons_self c rest)
      have hrest : ∀ c ∈ rest, c.changeA.createRes = .error ()
          ∧ c.changeB.createRes = .error () :=
        fun x hx => hall x (List.mem_cons_of_mem c hx)
      have hh := percycle hist c hc.1 hc.2
      have hcons : (monitor_loop (c :: rest) rt port hist).1 =
          (monitor_loop rest rt port (monitor_cycle c rt port hist).1).1 := rfl
      rw [hcons, hh]
      exact ih hrest

/-- C9 witness: one cycle with a raising allocation on a concrete script
leaves the empty history empty, logs the failure, and a two-cycle run
still leaves the history unchanged. -/
theorem monitor_cycle_alloc_throws_witness :
    (monitor_cycle ⟨.error (), allErrChange, .exn, allErrChange, .exn⟩
        600 443 []).1 = []
    ∧ (.logAllocFail ∈ (monitor_cycle ⟨.error (), allErrChange, .exn,
          allErrChange, .exn⟩ 600 443 []).2
       ∨ .logChangeFail ∈ (monitor_cycle ⟨.error (), allErrChange, .exn,
          allErrChange, .exn⟩ 600 443 []).2)
    ∧ (monitor_loop [⟨.error (), allErrChange, .exn, allErrChange, .exn⟩,
        ⟨.error (), allErrChange, .exn, allErrChange, .exn⟩] 600 443 []).1
      = [] := by
  have h := monitor_cycle_alloc_throws 600 443 []
  have h1 := h.1 ⟨.error (), allErrChange, .exn, allErrChange, .exn⟩
    (by decide) (by decide)
  refine ⟨h1.1, h1.2.2 (by left; decide), h.2 _ ?_⟩
  intro c hc
  simp at hc
  rw [hc]
  exact ⟨by decide, by decide⟩

/-- C1 witness: on concrete arguments monitor_server returns immediately
with only the initialization-failure log. -/
theorem monitor_server_init_type_error_witness :
    monitor_server [] 600 443 [] = ([], [.logInitFailure]) :=
  (monitor_server_init_type_error [] 600 443 []).1
